import Mathlib

/-
Verification of the model-initializer injection logic of the seldon-operator
(pkg/controller/seldondeployment/model_initializer_injector.go).

Go strings are modelled as `List Char`.  The helpers `splitOnChar`,
`joinChar` and `trimPrefixOf` mirror `strings.Split`, `strings.Join` and
`strings.TrimPrefix` for the single-character separator used by the code.
-/

/-- Strings of the Go program, modelled as lists of characters. -/
abbrev Str := List Char

/-- Mirrors Go `strings.Split(s, sep)` for a one-character separator `sep`:
the result always has at least one element, and `Split("", sep) = [""]`. -/
def splitOnChar (sep : Char) : Str → List Str
  | [] => [[]]
  | c :: cs =>
    match splitOnChar sep cs with
    | [] => [[]]
    | p :: ps => if c = sep then [] :: p :: ps else (c :: p) :: ps

/-- Mirrors Go `strings.Join(parts, sep)` for a one-character separator. -/
def joinChar (sep : Char) : List Str → Str
  | [] => []
  | [p] => p
  | p :: ps => p ++ sep :: joinChar sep ps

/-- Mirrors Go `strings.TrimPrefix(s, pre)`: drops `pre` when it is a
leading segment of `s`, otherwise returns `s` unchanged. -/
def trimPrefixOf (pre s : Str) : Str :=
  if pre.isPrefixOf s then s.drop pre.length else s

/- Constants of the Go file (the `const` block). -/

/-- Go constant `DefaultModelLocalMountPath`. -/
def DefaultModelLocalMountPath : Str := "/mnt/models".toList

/-- Go constant `ModelInitializerContainerName`. -/
def ModelInitializerContainerName : Str := "model-initializer".toList

/-- Go constant `ModelInitializerVolumeName`. -/
def ModelInitializerVolumeName : Str := "kfserving-provision-location".toList

/-- Go constant `ModelInitializerContainerImage`. -/
def ModelInitializerContainerImage : Str := "gcr.io/kfserving/model-initializer".toList

/-- Go constant `ModelInitializerContainerVersion`. -/
def ModelInitializerContainerVersion : Str := "latest".toList

/-- Go constant `PvcURIPrefix` (the claim URI scheme `pvc://`). -/
def PvcURIScheme : Str := "pvc://".toList

/-- Go constant `PvcSourceMountName`. -/
def PvcSourceMountName : Str := "kfserving-pvc-source".toList

/-- Go constant `PvcSourceMountPath`. -/
def PvcSourceMountPath : Str := "/mnt/pvc".toList

/-- Go constant `UserContainerName`. -/
def UserContainerName : Str := "user-container".toList

/-- Errors surfaced by the injection path: the invalid-URI error of
`parsePvcURI`, and any error of the credential phase (either the config-map
lookup in `credentialsBuilder` or `CreateSecretVolumeAndEnv`). -/
inductive InjErr where
  | invalidURI (uri : Str)
  | credErr (msg : Str)
deriving DecidableEq, Repr

/-- Mirrors Go `parsePvcURI`: trims the `pvc://` scheme, splits the
remainder on `/`; with more than one part the first is the claim name and
the rest rejoined with `/` is the path; with exactly one part that part is
the claim name and the path is empty; otherwise the invalid-URI error. -/
def parsePvcURI (srcURI : Str) : Except InjErr (Str × Str) :=
  let parts := splitOnChar '/' (trimPrefixOf PvcURIScheme srcURI)
  if 1 < parts.length then
    Except.ok (parts.headD [], joinChar '/' parts.tail)
  else if parts.length = 1 then
    Except.ok (parts.headD [], [])
  else
    Except.error (InjErr.invalidURI srcURI)

/-- Kubernetes `VolumeMount`: the fields the injector reads or writes. -/
structure VolumeMount where
  name : Str
  mountPath : Str
  readOnly : Bool
deriving DecidableEq, Repr

/-- Kubernetes `VolumeSource`, restricted to the alternatives that occur on
this code path: an `EmptyDir` scratch source, a `PersistentVolumeClaim`
reference by claim name, and a `Secret` source (the kind the credential
collaborator may add to the volume collection). -/
inductive VolumeSource where
  | emptyDir
  | persistentVolumeClaim (claimName : Str)
  | secret (secretName : Str)
deriving DecidableEq, Repr

/-- Kubernetes `Volume`: a name plus exactly one source. -/
structure Volume where
  name : Str
  source : VolumeSource
deriving DecidableEq, Repr

/-- Kubernetes `Container`, restricted to the fields this code path touches:
name, image, args, volume mounts and environment variables. -/
structure Container where
  name : Str
  image : Str
  args : List Str
  volumeMounts : List VolumeMount
  env : List (Str × Str)
deriving DecidableEq, Repr

/-- The pod template spec (`deployment.Spec.Template.Spec`), restricted to
the fields the injector touches: init containers, volumes and the
service-account name. -/
structure PodSpec where
  initContainers : List Container
  volumes : List Volume
  serviceAccountName : Str
deriving DecidableEq, Repr

/-- The credential phase, modelled abstractly: it covers both
`credentialsBuilder(Client)` (config-map lookup) and
`CreateSecretVolumeAndEnv(namespace, serviceAccountName, initContainer,
&podSpec.Volumes)`.  Given the namespace, the effective service-account
name, the not-yet-committed init container, and the pod volume collection,
it returns an optional error message together with the (possibly mutated)
container and volume collection.  Because the Go code hands the collaborator
a pointer into `podSpec.Volumes`, the returned volume collection is kept in
the pod spec whether or not an error is reported; the returned container is
committed only on success (it is a local value in the Go code). -/
def CredFn : Type := Str → Str → Container → List Volume → Option Str × Container × List Volume

/-- Outcome of one injection call: the Go function's error return, plus the
final state of the two values it mutates in place (`deployment`'s pod
template spec and `*userContainer`). -/
structure InjectOutcome where
  err : Option InjErr
  spec : PodSpec
  userContainer : Container
deriving DecidableEq, Repr

/-- The `pvcSourceVolume` value built in the Go code: a claim-backed volume
named `PvcSourceMountName` referencing the parsed claim name. -/
def pvcSourceVolume (pvcName : Str) : Volume :=
  { name := PvcSourceMountName, source := VolumeSource.persistentVolumeClaim pvcName }

/-- The `pvcSourceVolumeMount` value built in the Go code: a read-only mount
of the claim volume at the staging path, for the init container. -/
def pvcSourceVolumeMount : VolumeMount :=
  { name := PvcSourceMountName, mountPath := PvcSourceMountPath, readOnly := true }

/-- The `sharedVolume` value built in the Go code: the `EmptyDir` scratch
volume shared between the init container and the user container. -/
def sharedVolume : Volume :=
  { name := ModelInitializerVolumeName, source := VolumeSource.emptyDir }

/-- The `sharedVolumeWriteMount` value built in the Go code: a read-write
mount of the scratch volume at the local model path, for the init
container. -/
def sharedVolumeWriteMount : VolumeMount :=
  { name := ModelInitializerVolumeName, mountPath := DefaultModelLocalMountPath, readOnly := false }

/-- The `sharedVolumeReadMount` value built in the Go code: a read-only
mount of the scratch volume at the local model path, appended to the user
container. -/
def sharedVolumeReadMount : VolumeMount :=
  { name := ModelInitializerVolumeName, mountPath := DefaultModelLocalMountPath, readOnly := true }

/-- The pvc block of `InjectModelInitializer` (lines guarded by
`strings.HasPrefix(srcURI, PvcURIPrefix)`): for a claim-backed URI it
parses the URI, yields the claim volume and its init-container mount, and
rewrites the source URI to `PvcSourceMountPath + "/" + pvcPath`; for any
other URI it yields no volume, no mount, and the URI unchanged. -/
def pvcResolve (srcURI : Str) : Except InjErr (List Volume × List VolumeMount × Str) :=
  if PvcURIScheme.isPrefixOf srcURI then
    match parsePvcURI srcURI with
    | Except.error e => Except.error e
    | Except.ok (pvcName, pvcPath) =>
      Except.ok ([pvcSourceVolume pvcName], [pvcSourceVolumeMount],
        PvcSourceMountPath ++ '/' :: pvcPath)
  else
    Except.ok ([], [], srcURI)

/-- The effective service-account name: the caller-supplied override when
non-empty, otherwise `podSpec.ServiceAccountName`. -/
def effSA (podSpec : PodSpec) (serviceAccountName : Str) : Str :=
  if serviceAccountName = [] then podSpec.serviceAccountName else serviceAccountName

/-- Mirrors Go `InjectModelInitializer(deployment, userContainer, srcURI,
serviceAccountName, Client)`.  The deployment is represented by its
namespace and its pod template spec (the only parts the code reads or
writes); the Kubernetes client is represented by the abstract credential
phase `cred`.  Sequencing follows the source: idempotency guard, pvc
resolution, build of volumes/mounts/init container, mutation of the user
container, append of the new volumes to the pod spec, credential phase,
and finally the commit of the init container. -/
def InjectModelInitializer (cred : CredFn) (deployNamespace : Str)
    (podSpec : PodSpec) (userContainer : Container)
    (srcURI : Str) (serviceAccountName : Str) : InjectOutcome :=
  if podSpec.initContainers.any (fun c => decide (c.name = ModelInitializerContainerName)) then
    ⟨none, podSpec, userContainer⟩
  else
    match pvcResolve srcURI with
    | Except.error e => ⟨some e, podSpec, userContainer⟩
    | Except.ok (pvcVols, pvcMounts, srcURI1) =>
      let podVolumes : List Volume := pvcVols ++ [sharedVolume]
      let modelInitializerMounts : List VolumeMount := pvcMounts ++ [sharedVolumeWriteMount]
      let initContainer : Container :=
        { name := ModelInitializerContainerName
          image := ModelInitializerContainerImage ++ ':' :: ModelInitializerContainerVersion
          args := [srcURI1, DefaultModelLocalMountPath]
          volumeMounts := modelInitializerMounts
          env := [] }
      let userContainer1 : Container :=
        { userContainer with volumeMounts := userContainer.volumeMounts ++ [sharedVolumeReadMount] }
      let volumes1 : List Volume := podSpec.volumes ++ podVolumes
      match cred deployNamespace (effSA podSpec serviceAccountName) initContainer volumes1 with
      | (some msg, _, vols2) =>
        ⟨some (InjErr.credErr msg), { podSpec with volumes := vols2 }, userContainer1⟩
      | (none, initContainer2, vols2) =>
        ⟨none,
          { podSpec with
              volumes := vols2
              initContainers := podSpec.initContainers ++ [initContainer2] },
          userContainer1⟩

/- Derived views of the injection path, used to state the claims.  Each is a
direct transcription of the value the Go code builds on the corresponding
branch. -/

/-- The claim name and sub-path produced by `parsePvcURI` (which, as proved
below, never reports an error). -/
def pvcParsed (srcURI : Str) : Str × Str :=
  match parsePvcURI srcURI with
  | Except.ok p => p
  | Except.error _ => ([], [])

/-- The effective source URI the init container receives as its first
argument: for a claim-backed URI, the staging path, a separator, and the
parsed sub-path; otherwise the URI unchanged. -/
def effectiveSrcURI (srcURI : Str) : Str :=
  if PvcURIScheme.isPrefixOf srcURI then
    PvcSourceMountPath ++ '/' :: (pvcParsed srcURI).2
  else srcURI

/-- The volumes the injection path builds and appends to the pod spec
(`podVolumes` in the Go code): the claim volume when the source is
claim-backed, then the scratch volume. -/
def builtPodVolumes (srcURI : Str) : List Volume :=
  (if PvcURIScheme.isPrefixOf srcURI then [pvcSourceVolume (pvcParsed srcURI).1] else [])
    ++ [sharedVolume]

/-- The init-container mounts the injection path builds
(`modelInitializerMounts` in the Go code): the claim staging mount when the
source is claim-backed, then the scratch write mount. -/
def builtInitMounts (srcURI : Str) : List VolumeMount :=
  (if PvcURIScheme.isPrefixOf srcURI then [pvcSourceVolumeMount] else [])
    ++ [sharedVolumeWriteMount]

/-- The init container the injection path constructs (before the credential
phase may mutate it). -/
def builtInitContainer (srcURI : Str) : Container :=
  { name := ModelInitializerContainerName
    image := ModelInitializerContainerImage ++ ':' :: ModelInitializerContainerVersion
    args := [effectiveSrcURI srcURI, DefaultModelLocalMountPath]
    volumeMounts := builtInitMounts srcURI
    env := [] }

/- Structural lemmas. -/

/-- Go `strings.Split` never returns an empty slice, and neither does its
model. -/
theorem splitOnChar_ne_nil (sep : Char) (s : Str) : splitOnChar sep s ≠ [] := by
  induction s with
  | nil => simp [splitOnChar]
  | cons c cs ih =>
    simp only [splitOnChar]
    cases h : splitOnChar sep cs with
    | nil => simp
    | cons p ps =>
      by_cases hc : c = sep <;> simp [hc]

/-- Consequently `parsePvcURI` never reaches its error branch: it always
returns the pair `pvcParsed`. -/
theorem parsePvcURI_eq (srcURI : Str) :
    parsePvcURI srcURI = Except.ok (pvcParsed srcURI) := by
  have hne := splitOnChar_ne_nil '/' (trimPrefixOf PvcURIScheme srcURI)
  have hpos : 0 < (splitOnChar '/' (trimPrefixOf PvcURIScheme srcURI)).length :=
    List.length_pos.mpr hne
  unfold parsePvcURI pvcParsed
  by_cases h1 : 1 < (splitOnChar '/' (trimPrefixOf PvcURIScheme srcURI)).length
  · simp [parsePvcURI, h1]
  · have hlen : (splitOnChar '/' (trimPrefixOf PvcURIScheme srcURI)).length = 1 := by
      omega
    simp [parsePvcURI, h1, hlen]

/-- The pvc block always succeeds, yielding the built claim volumes, the
built staging mounts, and the effective source URI. -/
theorem pvcResolve_eq (srcURI : Str) :
    pvcResolve srcURI = Except.ok
      ((if PvcURIScheme.isPrefixOf srcURI then [pvcSourceVolume (pvcParsed srcURI).1] else []),
       (if PvcURIScheme.isPrefixOf srcURI then [pvcSourceVolumeMount] else []),
       effectiveSrcURI srcURI) := by
  unfold pvcResolve effectiveSrcURI
  by_cases hp : PvcURIScheme.isPrefixOf srcURI
  · simp [hp, parsePvcURI_eq]
  · simp [hp]

/-- When the idempotency guard does not fire and the credential phase
succeeds, the injection commits the (credential-mutated) init container,
installs the volume collection the credential phase returned, and appends
the read-only scratch mount to the user container. -/
theorem inject_eq_ok (cred : CredFn) (ns : Str) (podSpec : PodSpec)
    (uc : Container) (srcURI sa : Str) (c2 : Container) (vols2 : List Volume)
    (hguard : podSpec.initContainers.any
      (fun c => decide (c.name = ModelInitializerContainerName)) = false)
    (hcred : cred ns (effSA podSpec sa) (builtInitContainer srcURI)
      (podSpec.volumes ++ builtPodVolumes srcURI) = (none, c2, vols2)) :
    InjectModelInitializer cred ns podSpec uc srcURI sa =
      ⟨none,
        { podSpec with
            volumes := vols2
            initContainers := podSpec.initContainers ++ [c2] },
        { uc with volumeMounts := uc.volumeMounts ++ [sharedVolumeReadMount] }⟩ := by
  unfold InjectModelInitializer
  rw [hguard]
  simp only [Bool.false_eq_true, if_false, pvcResolve_eq]
  simp only [builtInitContainer, builtPodVolumes, builtInitMounts, List.append_assoc] at hcred ⊢
  rw [hcred]

/-- When the idempotency guard does not fire and the credential phase
fails, the injection reports the error, leaves the init-container list
unchanged, installs the volume collection the credential phase returned,
and still appends the read-only scratch mount to the user container. -/
theorem inject_eq_err (cred : CredFn) (ns : Str) (podSpec : PodSpec)
    (uc : Container) (srcURI sa : Str) (msg : Str) (c2 : Container) (vols2 : List Volume)
    (hguard : podSpec.initContainers.any
      (fun c => decide (c.name = ModelInitializerContainerName)) = false)
    (hcred : cred ns (effSA podSpec sa) (builtInitContainer srcURI)
      (podSpec.volumes ++ builtPodVolumes srcURI) = (some msg, c2, vols2)) :
    InjectModelInitializer cred ns podSpec uc srcURI sa =
      ⟨some (InjErr.credErr msg),
        { podSpec with volumes := vols2 },
        { uc with volumeMounts := uc.volumeMounts ++ [sharedVolumeReadMount] }⟩ := by
  unfold InjectModelInitializer
  rw [hguard]
  simp only [Bool.false_eq_true, if_false, pvcResolve_eq]
  simp only [builtInitContainer, builtPodVolumes, builtInitMounts, List.append_assoc] at hcred ⊢
  rw [hcred]

/-- When the idempotency guard fires, the injection reports success and
changes nothing. -/
theorem inject_eq_guard (cred : CredFn) (ns : Str) (podSpec : PodSpec)
    (uc : Container) (srcURI sa : Str)
    (hguard : podSpec.initContainers.any
      (fun c => decide (c.name = ModelInitializerContainerName)) = true) :
    InjectModelInitializer cred ns podSpec uc srcURI sa = ⟨none, podSpec, uc⟩ := by
  unfold InjectModelInitializer
  rw [hguard]
  simp

/- Concrete fixtures for witnesses and counterexamples. -/

/-- A credential phase that succeeds and mutates nothing (credentials not
needed for the storage backend). -/
def credOk : CredFn := fun _ _ c vs => (none, c, vs)

/-- A credential phase that fails (e.g. the `seldon-config` config map is
missing) without mutating anything. -/
def credFail : CredFn := fun _ _ c vs => (some "config map not found".toList, c, vs)

/-- An empty user container named with the reserved user-container name. -/
def ucEmpty : Container :=
  { name := UserContainerName, image := "image".toList, args := [],
    volumeMounts := [], env := [] }

/-- An empty pod template spec. -/
def psEmpty : PodSpec :=
  { initContainers := [], volumes := [], serviceAccountName := [] }

/-- A pod template spec that already carries an init container with the
reserved injector name. -/
def psInjected : PodSpec :=
  { initContainers := [builtInitContainer "s3://bucket/model".toList],
    volumes := [], serviceAccountName := [] }

/- Claim theorems. -/

/-- C1: the spec states that for the URI `pvc://` (empty remainder after
stripping the scheme) `parsePvcURI` fails with `InvalidURI`.  The code does
not: `strings.Split` always returns at least one part, so the error branch
is unreachable and `parsePvcURI "pvc://"` returns claim name `""` and
sub-path `""` with no error. -/
theorem parsePvcURI_empty_remainder_returns_ok :
    parsePvcURI "pvc://".toList = Except.ok ("".toList, "".toList) := by rfl

/-- C8: for every URI whose remainder after stripping `pvc://` is
non-empty, `parsePvcURI` succeeds; with more than one segment it returns
the first segment and the rest rejoined with `/`, and with exactly one
segment it returns that segment and the empty sub-path. -/
theorem parsePvcURI_nonempty_remainder (srcURI : Str)
    (h : trimPrefixOf PvcURIScheme srcURI ≠ []) :
    (1 < (splitOnChar '/' (trimPrefixOf PvcURIScheme srcURI)).length →
      parsePvcURI srcURI = Except.ok
        ((splitOnChar '/' (trimPrefixOf PvcURIScheme srcURI)).headD [],
         joinChar '/' (splitOnChar '/' (trimPrefixOf PvcURIScheme srcURI)).tail)) ∧
    ((splitOnChar '/' (trimPrefixOf PvcURIScheme srcURI)).length = 1 →
      parsePvcURI srcURI = Except.ok
        ((splitOnChar '/' (trimPrefixOf PvcURIScheme srcURI)).headD [], [])) := by
  constructor
  · intro h1
    unfold parsePvcURI
    simp [h1]
  · intro h1
    have h2 : ¬ 1 < (splitOnChar '/' (trimPrefixOf PvcURIScheme srcURI)).length := by
      omega
    unfold parsePvcURI
    simp [h1, h2]

/-- Witness for C8 at the concrete URI `pvc://claim1/sub/dir`. -/
theorem parsePvcURI_nonempty_remainder_witness :
    trimPrefixOf PvcURIScheme "pvc://claim1/sub/dir".toList ≠ [] ∧
    ((1 < (splitOnChar '/' (trimPrefixOf PvcURIScheme "pvc://claim1/sub/dir".toList)).length →
      parsePvcURI "pvc://claim1/sub/dir".toList = Except.ok
        ((splitOnChar '/' (trimPrefixOf PvcURIScheme "pvc://claim1/sub/dir".toList)).headD [],
         joinChar '/' (splitOnChar '/' (trimPrefixOf PvcURIScheme "pvc://claim1/sub/dir".toList)).tail)) ∧
    ((splitOnChar '/' (trimPrefixOf PvcURIScheme "pvc://claim1/sub/dir".toList)).length = 1 →
      parsePvcURI "pvc://claim1/sub/dir".toList = Except.ok
        ((splitOnChar '/' (trimPrefixOf PvcURIScheme "pvc://claim1/sub/dir".toList)).headD [], []))) :=
  ⟨by decide, parsePvcURI_nonempty_remainder "pvc://claim1/sub/dir".toList (by decide)⟩

/-- C9: the idempotency guard runs before any URI handling: when the pod
spec already holds an init container with the reserved injector name, the
injection returns success and changes nothing, for every source URI —
including the malformed claim-backed URI `pvc://`. -/
theorem guard_precedes_uri_validation (cred : CredFn) (ns : Str) (podSpec : PodSpec)
    (uc : Container) (sa : Str)
    (hguard : podSpec.initContainers.any
      (fun c => decide (c.name = ModelInitializerContainerName)) = true) :
    ∀ srcURI : Str,
      InjectModelInitializer cred ns podSpec uc srcURI sa = ⟨none, podSpec, uc⟩ := by
  intro srcURI
  exact inject_eq_guard cred ns podSpec uc srcURI sa hguard

/-- Witness for C9: a pod spec already injected, with the malformed URI
`pvc://`. -/
theorem guard_precedes_uri_validation_witness :
    psInjected.initContainers.any
      (fun c => decide (c.name = ModelInitializerContainerName)) = true ∧
    InjectModelInitializer credFail "ns".toList psInjected ucEmpty "pvc://".toList [] =
      ⟨none, psInjected, ucEmpty⟩ :=
  ⟨by decide,
   guard_precedes_uri_validation credFail "ns".toList psInjected ucEmpty [] (by decide)
     "pvc://".toList⟩

/-- C2 counterexample: invoking the injection twice is NOT always identical
to invoking it once.  When the credential phase fails, the first call
leaves the scratch volume appended but commits no init container, so the
second call's guard does not fire and the volume (and the user-container
mount) are appended again. -/
theorem inject_twice_ne_once :
    InjectModelInitializer credFail "ns".toList
        (InjectModelInitializer credFail "ns".toList psEmpty ucEmpty
          "s3://bucket/model".toList []).spec
        (InjectModelInitializer credFail "ns".toList psEmpty ucEmpty
          "s3://bucket/model".toList []).userContainer
        "s3://bucket/model".toList [] ≠
      InjectModelInitializer credFail "ns".toList psEmpty ucEmpty
        "s3://bucket/model".toList [] := by decide

/-- C2 amended: when the first invocation succeeds (and the credential
phase, per its contract, preserves the container name), a second invocation
with identical inputs returns success and changes nothing, so the state
after two invocations is identical to the state after one.  In particular,
when the pod spec already holds an init container with the reserved name,
the call returns success with zero mutations. -/
theorem inject_idempotent_on_success (cred : CredFn) (ns : Str) (podSpec : PodSpec)
    (uc : Container) (srcURI sa : Str)
    (hname : ∀ n s c vs, ((cred n s c vs).2.1).name = c.name)
    (hok : (InjectModelInitializer cred ns podSpec uc srcURI sa).err = none) :
    InjectModelInitializer cred ns
        (InjectModelInitializer cred ns podSpec uc srcURI sa).spec
        (InjectModelInitializer cred ns podSpec uc srcURI sa).userContainer srcURI sa =
      InjectModelInitializer cred ns podSpec uc srcURI sa := by
  by_cases hguard : podSpec.initContainers.any
      (fun c => decide (c.name = ModelInitializerContainerName)) = true
  · rw [inject_eq_guard cred ns podSpec uc srcURI sa hguard]
    exact inject_eq_guard cred ns podSpec uc srcURI sa hguard
  · have hguard' : podSpec.initContainers.any
        (fun c => decide (c.name = ModelInitializerContainerName)) = false := by
      revert hguard
      cases podSpec.initContainers.any
        (fun c => decide (c.name = ModelInitializerContainerName)) <;> simp
    rcases hc : cred ns (effSA podSpec sa) (builtInitContainer srcURI)
        (podSpec.volumes ++ builtPodVolumes srcURI) with ⟨o, c2, vols2⟩
    cases o with
    | some msg =>
      rw [inject_eq_err cred ns podSpec uc srcURI sa msg c2 vols2 hguard' hc] at hok
      simp at hok
    | none =>
      rw [inject_eq_ok cred ns podSpec uc srcURI sa c2 vols2 hguard' hc]
      have hc2name : c2.name = ModelInitializerContainerName := by
        have := hname ns (effSA podSpec sa) (builtInitContainer srcURI)
          (podSpec.volumes ++ builtPodVolumes srcURI)
        rw [hc] at this
        exact this
      apply inject_eq_guard
      simp [List.any_append, hc2name]

/-- Witness for the amended C2: a successful injection of an s3-backed
model into an empty pod template, invoked twice. -/
theorem inject_idempotent_on_success_witness :
    (InjectModelInitializer credOk "ns".toList psEmpty ucEmpty
        "s3://bucket/model".toList []).err = none ∧
    InjectModelInitializer credOk "ns".toList
        (InjectModelInitializer credOk "ns".toList psEmpty ucEmpty
          "s3://bucket/model".toList []).spec
        (InjectModelInitializer credOk "ns".toList psEmpty ucEmpty
          "s3://bucket/model".toList []).userContainer
        "s3://bucket/model".toList [] =
      InjectModelInitializer credOk "ns".toList psEmpty ucEmpty
        "s3://bucket/model".toList [] :=
  ⟨by decide,
   inject_idempotent_on_success credOk "ns".toList psEmpty ucEmpty
     "s3://bucket/model".toList [] (fun _ _ _ _ => rfl) (by decide)⟩

/-- C3: when the credential phase fails (here: reporting `msg` after
appending `extra` volumes, per its contract of only adding to the
collection), the injection propagates the error, the init-container list is
unchanged, and the volumes that were appended before the credential phase —
the pod spec's original volumes followed by the newly built ones — remain a
prefix of the pod spec's volume list. -/
theorem cred_failure_keeps_volumes (cred : CredFn) (ns : Str) (podSpec : PodSpec)
    (uc : Container) (srcURI sa msg : Str) (c2 : Container) (extra : List Volume)
    (hguard : podSpec.initContainers.any
      (fun c => decide (c.name = ModelInitializerContainerName)) = false)
    (hcred : cred ns (effSA podSpec sa) (builtInitContainer srcURI)
      (podSpec.volumes ++ builtPodVolumes srcURI) =
      (some msg, c2, (podSpec.volumes ++ builtPodVolumes srcURI) ++ extra)) :
    (InjectModelInitializer cred ns podSpec uc srcURI sa).err =
        some (InjErr.credErr msg) ∧
    (InjectModelInitializer cred ns podSpec uc srcURI sa).spec.initContainers =
        podSpec.initContainers ∧
    podSpec.volumes ++ builtPodVolumes srcURI <+:
        (InjectModelInitializer cred ns podSpec uc srcURI sa).spec.volumes := by
  rw [inject_eq_err cred ns podSpec uc srcURI sa msg c2
    ((podSpec.volumes ++ builtPodVolumes srcURI) ++ extra) hguard hcred]
  exact ⟨rfl, rfl, ⟨extra, rfl⟩⟩

/-- Witness for C3: a failing credential phase on an empty pod template
with an s3-backed model source. -/
theorem cred_failure_keeps_volumes_witness :
    (InjectModelInitializer credFail "ns".toList psEmpty ucEmpty
        "s3://bucket/model".toList []).err =
        some (InjErr.credErr "config map not found".toList) ∧
    (InjectModelInitializer credFail "ns".toList psEmpty ucEmpty
        "s3://bucket/model".toList []).spec.initContainers =
        psEmpty.initContainers ∧
    psEmpty.volumes ++ builtPodVolumes "s3://bucket/model".toList <+:
        (InjectModelInitializer credFail "ns".toList psEmpty ucEmpty
          "s3://bucket/model".toList []).spec.volumes :=
  cred_failure_keeps_volumes credFail "ns".toList psEmpty ucEmpty
    "s3://bucket/model".toList [] "config map not found".toList
    (builtInitContainer "s3://bucket/model".toList) [] (by decide) (by simp [credFail])

/-- C10: when the credential phase fails, the user container nevertheless
retains the read-only scratch mount appended before the credential phase:
that mutation happens earlier and is not rolled back on error. -/
theorem cred_failure_keeps_user_mount (cred : CredFn) (ns : Str) (podSpec : PodSpec)
    (uc : Container) (srcURI sa msg : Str) (c2 : Container) (vols2 : List Volume)
    (hguard : podSpec.initContainers.any
      (fun c => decide (c.name = ModelInitializerContainerName)) = false)
    (hcred : cred ns (effSA podSpec sa) (builtInitContainer srcURI)
      (podSpec.volumes ++ builtPodVolumes srcURI) = (some msg, c2, vols2)) :
    (InjectModelInitializer cred ns podSpec uc srcURI sa).err =
        some (InjErr.credErr msg) ∧
    (InjectModelInitializer cred ns podSpec uc srcURI sa).userContainer.volumeMounts =
        uc.volumeMounts ++ [sharedVolumeReadMount] ∧
    sharedVolumeReadMount.readOnly = true := by
  rw [inject_eq_err cred ns podSpec uc srcURI sa msg c2 vols2 hguard hcred]
  exact ⟨rfl, rfl, rfl⟩

/-- Witness for C10: the failing credential phase on an empty pod template;
the user container ends with the read-only scratch mount appended. -/
theorem cred_failure_keeps_user_mount_witness :
    (InjectModelInitializer credFail "ns".toList psEmpty ucEmpty
        "s3://bucket/model".toList []).err =
        some (InjErr.credErr "config map not found".toList) ∧
    (InjectModelInitializer credFail "ns".toList psEmpty ucEmpty
        "s3://bucket/model".toList []).userContainer.volumeMounts =
        ucEmpty.volumeMounts ++ [sharedVolumeReadMount] ∧
    sharedVolumeReadMount.readOnly = true :=
  cred_failure_keeps_user_mount credFail "ns".toList psEmpty ucEmpty
    "s3://bucket/model".toList [] "config map not found".toList
    (builtInitContainer "s3://bucket/model".toList)
    (psEmpty.volumes ++ builtPodVolumes "s3://bucket/model".toList)
    (by decide) (by simp [credFail])

/-- C4: for every claim-backed source URI under the idempotency guard's and
credential phase's normal operation, the init container's first argument is
the staging mount path, a single separator, and the parsed sub-path, and
exactly two new volumes are appended: the claim volume for the parsed claim
name and the scratch volume. -/
theorem pvc_uri_rewrite (cred : CredFn) (ns : Str) (podSpec : PodSpec)
    (uc : Container) (srcURI sa : Str)
    (hguard : podSpec.initContainers.any
      (fun c => decide (c.name = ModelInitializerContainerName)) = false)
    (hpvc : PvcURIScheme.isPrefixOf srcURI = true)
    (hcred : cred ns (effSA podSpec sa) (builtInitContainer srcURI)
      (podSpec.volumes ++ builtPodVolumes srcURI) =
      (none, builtInitContainer srcURI, podSpec.volumes ++ builtPodVolumes srcURI)) :
    (InjectModelInitializer cred ns podSpec uc srcURI sa).err = none ∧
    (InjectModelInitializer cred ns podSpec uc srcURI sa).spec.initContainers =
        podSpec.initContainers ++ [builtInitContainer srcURI] ∧
    (builtInitContainer srcURI).args.headD [] =
        PvcSourceMountPath ++ '/' :: (pvcParsed srcURI).2 ∧
    (InjectModelInitializer cred ns podSpec uc srcURI sa).spec.volumes =
        podSpec.volumes ++ [pvcSourceVolume (pvcParsed srcURI).1, sharedVolume] := by
  rw [inject_eq_ok cred ns podSpec uc srcURI sa (builtInitContainer srcURI)
    (podSpec.volumes ++ builtPodVolumes srcURI) hguard hcred]
  refine ⟨rfl, rfl, ?_, ?_⟩
  · simp [builtInitContainer, effectiveSrcURI, hpvc]
  · simp [builtPodVolumes, hpvc]

/-- Witness for C4: scenario B of the spec — source `pvc://mymodel/v1`
into an empty pod template, with the first argument `/mnt/pvc/v1`. -/
theorem pvc_uri_rewrite_witness :
    ((InjectModelInitializer credOk "ns".toList psEmpty ucEmpty
        "pvc://mymodel/v1".toList []).err = none ∧
    (InjectModelInitializer credOk "ns".toList psEmpty ucEmpty
        "pvc://mymodel/v1".toList []).spec.initContainers =
        psEmpty.initContainers ++ [builtInitContainer "pvc://mymodel/v1".toList] ∧
    (builtInitContainer "pvc://mymodel/v1".toList).args.headD [] =
        PvcSourceMountPath ++ '/' :: (pvcParsed "pvc://mymodel/v1".toList).2 ∧
    (InjectModelInitializer credOk "ns".toList psEmpty ucEmpty
        "pvc://mymodel/v1".toList []).spec.volumes =
        psEmpty.volumes ++ [pvcSourceVolume (pvcParsed "pvc://mymodel/v1".toList).1,
          sharedVolume]) ∧
    (builtInitContainer "pvc://mymodel/v1".toList).args.headD [] = "/mnt/pvc/v1".toList ∧
    (pvcParsed "pvc://mymodel/v1".toList).1 = "mymodel".toList :=
  ⟨pvc_uri_rewrite credOk "ns".toList psEmpty ucEmpty "pvc://mymodel/v1".toList []
     (by decide) (by decide) rfl,
   by decide, by decide⟩

/-- C5: after a successful injection into a pod template with no init
container carrying the reserved name (the credential phase, per its
contract, preserving the container's name and args), the pod template holds
exactly one init container with the reserved name, its argument list has
length 2, and its second argument is the local mount path `/mnt/models`. -/
theorem post_injection_shape (cred : CredFn) (ns : Str) (podSpec : PodSpec)
    (uc : Container) (srcURI sa : Str) (c2 : Container) (vols2 : List Volume)
    (hnone : ∀ c ∈ podSpec.initContainers, ¬ c.name = ModelInitializerContainerName)
    (hcred : cred ns (effSA podSpec sa) (builtInitContainer srcURI)
      (podSpec.volumes ++ builtPodVolumes srcURI) = (none, c2, vols2))
    (hname : c2.name = ModelInitializerContainerName)
    (hargs : c2.args = (builtInitContainer srcURI).args) :
    (InjectModelInitializer cred ns podSpec uc srcURI sa).err = none ∧
    (InjectModelInitializer cred ns podSpec uc srcURI sa).spec.initContainers.filter
        (fun c => decide (c.name = ModelInitializerContainerName)) = [c2] ∧
    c2.args.length = 2 ∧
    c2.args.getD 1 [] = DefaultModelLocalMountPath := by
  have hguard : podSpec.initContainers.any
      (fun c => decide (c.name = ModelInitializerContainerName)) = false := by
    rw [List.any_eq_false]
    intro c hc
    simpa using hnone c hc
  rw [inject_eq_ok cred ns podSpec uc srcURI sa c2 vols2 hguard hcred]
  refine ⟨rfl, ?_, ?_, ?_⟩
  · have h1 : podSpec.initContainers.filter
        (fun c => decide (c.name = ModelInitializerContainerName)) = [] := by
      rw [List.filter_eq_nil_iff]
      intro c hc
      simpa using hnone c hc
    simp [List.filter_append, h1, List.filter, hname]
  · rw [hargs]
    rfl
  · rw [hargs]
    rfl

/-- Witness for C5: a successful injection of an s3-backed model into an
empty pod template. -/
theorem post_injection_shape_witness :
    (InjectModelInitializer credOk "ns".toList psEmpty ucEmpty
        "s3://bucket/model".toList []).err = none ∧
    (InjectModelInitializer credOk "ns".toList psEmpty ucEmpty
        "s3://bucket/model".toList []).spec.initContainers.filter
        (fun c => decide (c.name = ModelInitializerContainerName)) =
        [builtInitContainer "s3://bucket/model".toList] ∧
    (builtInitContainer "s3://bucket/model".toList).args.length = 2 ∧
    (builtInitContainer "s3://bucket/model".toList).args.getD 1 [] =
        DefaultModelLocalMountPath :=
  post_injection_shape credOk "ns".toList psEmpty ucEmpty "s3://bucket/model".toList []
    (builtInitContainer "s3://bucket/model".toList)
    (psEmpty.volumes ++ builtPodVolumes "s3://bucket/model".toList)
    (by simp [psEmpty]) rfl rfl rfl

/-- C6: after a successful injection (the credential phase, per its
contract, only appending to the init container's mounts), the committed
init container mounts the scratch volume read-write and the user container
mounts it read-only at the identical path; for a claim-backed source the
init container's staging mount is read-only. -/
theorem mount_symmetry (cred : CredFn) (ns : Str) (podSpec : PodSpec)
    (uc : Container) (srcURI sa : Str) (c2 : Container) (vols2 : List Volume)
    (hguard : podSpec.initContainers.any
      (fun c => decide (c.name = ModelInitializerContainerName)) = false)
    (hcred : cred ns (effSA podSpec sa) (builtInitContainer srcURI)
      (podSpec.volumes ++ builtPodVolumes srcURI) = (none, c2, vols2))
    (hmounts : (builtInitContainer srcURI).volumeMounts <+: c2.volumeMounts) :
    (InjectModelInitializer cred ns podSpec uc srcURI sa).err = none ∧
    (InjectModelInitializer cred ns podSpec uc srcURI sa).spec.initContainers =
        podSpec.initContainers ++ [c2] ∧
    sharedVolumeWriteMount ∈ c2.volumeMounts ∧
    sharedVolumeWriteMount.readOnly = false ∧
    sharedVolumeReadMount ∈
        (InjectModelInitializer cred ns podSpec uc srcURI sa).userContainer.volumeMounts ∧
    sharedVolumeReadMount.readOnly = true ∧
    sharedVolumeWriteMount.mountPath = sharedVolumeReadMount.mountPath ∧
    (PvcURIScheme.isPrefixOf srcURI = true →
      pvcSourceVolumeMount ∈ c2.volumeMounts ∧ pvcSourceVolumeMount.readOnly = true) := by
  rw [inject_eq_ok cred ns podSpec uc srcURI sa c2 vols2 hguard hcred]
  refine ⟨rfl, rfl, ?_, rfl, ?_, rfl, rfl, ?_⟩
  · exact hmounts.subset (by simp [builtInitContainer, builtInitMounts])
  · simp
  · intro hpvc
    exact ⟨hmounts.subset (by simp [builtInitContainer, builtInitMounts, hpvc]), rfl⟩

/-- Witness for C6: a successful injection of a claim-backed model
`pvc://mymodel/v1` into an empty pod template. -/
theorem mount_symmetry_witness :
    (InjectModelInitializer credOk "ns".toList psEmpty ucEmpty
        "pvc://mymodel/v1".toList []).err = none ∧
    (InjectModelInitializer credOk "ns".toList psEmpty ucEmpty
        "pvc://mymodel/v1".toList []).spec.initContainers =
        psEmpty.initContainers ++ [builtInitContainer "pvc://mymodel/v1".toList] ∧
    sharedVolumeWriteMount ∈ (builtInitContainer "pvc://mymodel/v1".toList).volumeMounts ∧
    sharedVolumeWriteMount.readOnly = false ∧
    sharedVolumeReadMount ∈
        (InjectModelInitializer credOk "ns".toList psEmpty ucEmpty
          "pvc://mymodel/v1".toList []).userContainer.volumeMounts ∧
    sharedVolumeReadMount.readOnly = true ∧
    sharedVolumeWriteMount.mountPath = sharedVolumeReadMount.mountPath ∧
    (PvcURIScheme.isPrefixOf "pvc://mymodel/v1".toList = true →
      pvcSourceVolumeMount ∈ (builtInitContainer "pvc://mymodel/v1".toList).volumeMounts ∧
      pvcSourceVolumeMount.readOnly = true) :=
  mount_symmetry credOk "ns".toList psEmpty ucEmpty "pvc://mymodel/v1".toList []
    (builtInitContainer "pvc://mymodel/v1".toList)
    (psEmpty.volumes ++ builtPodVolumes "pvc://mymodel/v1".toList)
    (by decide) rfl ⟨[], by simp⟩

/-- C7: for every source URI not carrying the `pvc://` scheme, the URI is
passed through unmodified as the init container's first argument, exactly
one new volume (the scratch volume) is appended, the init container's image
is the configured default image and tag, its arguments are the URI and the
local mount path, and the user container gains exactly one new read-only
mount. -/
theorem opaque_uri_passthrough (cred : CredFn) (ns : Str) (podSpec : PodSpec)
    (uc : Container) (srcURI sa : Str)
    (hguard : podSpec.initContainers.any
      (fun c => decide (c.name = ModelInitializerContainerName)) = false)
    (hnp : PvcURIScheme.isPrefixOf srcURI = false)
    (hcred : cred ns (effSA podSpec sa) (builtInitContainer srcURI)
      (podSpec.volumes ++ builtPodVolumes srcURI) =
      (none, builtInitContainer srcURI, podSpec.volumes ++ builtPodVolumes srcURI)) :
    (InjectModelInitializer cred ns podSpec uc srcURI sa).err = none ∧
    (builtInitContainer srcURI).args = [srcURI, DefaultModelLocalMountPath] ∧
    (InjectModelInitializer cred ns podSpec uc srcURI sa).spec.volumes =
        podSpec.volumes ++ [sharedVolume] ∧
    (InjectModelInitializer cred ns podSpec uc srcURI sa).spec.initContainers =
        podSpec.initContainers ++ [builtInitContainer srcURI] ∧
    (builtInitContainer srcURI).image =
        ModelInitializerContainerImage ++ ':' :: ModelInitializerContainerVersion ∧
    (InjectModelInitializer cred ns podSpec uc srcURI sa).userContainer.volumeMounts =
        uc.volumeMounts ++ [sharedVolumeReadMount] ∧
    sharedVolumeReadMount.readOnly = true := by
  rw [inject_eq_ok cred ns podSpec uc srcURI sa (builtInitContainer srcURI)
    (podSpec.volumes ++ builtPodVolumes srcURI) hguard hcred]
  refine ⟨rfl, ?_, ?_, rfl, rfl, rfl, rfl⟩
  · simp [builtInitContainer, effectiveSrcURI, hnp]
  · simp [builtPodVolumes, hnp]

/-- Witness for C7: scenario A of the spec — source `s3://bucket/model`
into an empty pod template, no service-account override, with the image
evaluated to `gcr.io/kfserving/model-initializer:latest`. -/
theorem opaque_uri_passthrough_witness :
    ((InjectModelInitializer credOk "ns".toList psEmpty ucEmpty
        "s3://bucket/model".toList []).err = none ∧
    (builtInitContainer "s3://bucket/model".toList).args =
        ["s3://bucket/model".toList, DefaultModelLocalMountPath] ∧
    (InjectModelInitializer credOk "ns".toList psEmpty ucEmpty
        "s3://bucket/model".toList []).spec.volumes =
        psEmpty.volumes ++ [sharedVolume] ∧
    (InjectModelInitializer credOk "ns".toList psEmpty ucEmpty
        "s3://bucket/model".toList []).spec.initContainers =
        psEmpty.initContainers ++ [builtInitContainer "s3://bucket/model".toList] ∧
    (builtInitContainer "s3://bucket/model".toList).image =
        ModelInitializerContainerImage ++ ':' :: ModelInitializerContainerVersion ∧
    (InjectModelInitializer credOk "ns".toList psEmpty ucEmpty
        "s3://bucket/model".toList []).userContainer.volumeMounts =
        ucEmpty.volumeMounts ++ [sharedVolumeReadMount] ∧
    sharedVolumeReadMount.readOnly = true) ∧
    (builtInitContainer "s3://bucket/model".toList).image =
        "gcr.io/kfserving/model-initializer:latest".toList ∧
    (builtInitContainer "s3://bucket/model".toList).args.getD 1 [] =
        "/mnt/models".toList :=
  ⟨opaque_uri_passthrough credOk "ns".toList psEmpty ucEmpty
     "s3://bucket/model".toList [] (by decide) (by decide) rfl,
   by decide, by decide⟩
